import Mathlib

set_option maxRecDepth 8000

/-!
Verification of `src/images.py`, a CLI tool that reads a YAML manifest,
resizes a local image into a main (1600px) and a preview (75px) JPEG
variant, and uploads both to S3-compatible object storage.

The Python program is shallowly embedded: pure computations become Lean
functions, and the effectful `upload` command becomes a function from an
abstract `World` (outcomes of YAML parsing, image decoding, and network
uploads, plus the process environment) to a trace of observable events
paired with the process exit code.  The external libraries (PIL, boto3,
typer) are modelled only at the granularity the program observes:
PIL color modes and the set of modes JPEG encoding accepts, and the
parameters the program passes to the storage client.

Python float arithmetic in `resize_image` (`aspect_ratio = h / w`,
`int(target_width * aspect_ratio)`) is IEEE binary64 and is modelled
exactly: nonnegative doubles are dyadic mantissa-exponent pairs, each
operation rounds its exact result to nearest, ties to even, with the
IEEE subnormal range and overflow threshold, and `int()` truncates.
The CLI layer is modelled too: click validates the options and exits
with code 2 on a usage error before the command body runs; inside the
body, a raised `typer.Exit` is itself a `RuntimeError` and is re-caught
by the `except Exception` clause, which prints one extra stderr line
before the process exits 1.
-/

/-- PIL color modes relevant to the program.  `one` stands for the PIL
mode string "1" (bilevel). -/
inductive ImageMode where
  | one | L | LA | P | PA | RGB | RGBA | RGBX | CMYK | YCbCr
  deriving DecidableEq, Repr

/-- Modes that carry an alpha channel in PIL: RGBA, LA (grayscale with
alpha) and PA (palette with alpha). -/
def ImageMode.hasAlpha : ImageMode → Bool
  | .RGBA | .LA | .PA => true
  | _ => false

/-- Modes the PIL JPEG encoder accepts (the keys of RAWMODE in
JpegImagePlugin): "1", "L", "RGB", "RGBX", "CMYK", "YCbCr".  Saving any
other mode as JPEG raises OSError. -/
def ImageMode.jpegSavable : ImageMode → Bool
  | .one | .L | .RGB | .RGBX | .CMYK | .YCbCr => true
  | _ => false

/-- A decoded source image as `Image.open` yields it: pixel dimensions
and color mode. -/
structure SourceImage where
  width : ℕ
  height : ℕ
  mode : ImageMode
  deriving DecidableEq, Repr

/-- The in-memory JPEG result of `resize_image`: dimensions, the mode at
save time, and the encoder parameters passed to `save`. -/
structure JpegBuffer where
  width : ℕ
  height : ℕ
  mode : ImageMode
  quality : ℕ
  optimize : Bool
  deriving DecidableEq, Repr

/-- Failure modes of `Image.open` / `resize_image`: missing or
undecodable file; ZeroDivisionError from `height / width` when the
width is 0; OverflowError/ValueError when the float computation leaves
the double range; ValueError from Pillow when a target dimension is
below 1; OSError from the JPEG encoder on an unsupported mode. -/
inductive PILError where
  | fileNotFound
  | unidentifiedImage
  | zeroDivision
  | floatRange
  | invalidResizeSize
  | cannotWriteAsJpeg
  deriving DecidableEq, Repr

instance {e a : Type} [DecidableEq e] [DecidableEq a] : DecidableEq (Except e a) :=
  fun x y =>
  match x, y with
  | .ok v, .ok v2 => if h : v = v2 then isTrue (by rw [h]) else isFalse (by simp [h])
  | .error v, .error v2 => if h : v = v2 then isTrue (by rw [h]) else isFalse (by simp [h])
  | .ok _, .error _ => isFalse (by simp)
  | .error _, .ok _ => isFalse (by simp)

/-!  ### IEEE binary64 arithmetic

Lines 37-38 of the source compute `img.height / img.width` and
`int(target_width * aspect_ratio)` in Python floats, i.e. IEEE binary64
with round-to-nearest, ties to even.  The model below implements that
arithmetic exactly over unbounded integers: a nonnegative double is a
mantissa times a power of two (or +infinity), division and
multiplication round the exact rational result to 53 significant bits
with the IEEE subnormal range and overflow threshold, and `int()`
truncates.  All definitions are structural recursions over ℕ and ℤ so
that concrete values evaluate by `decide`. -/

/-- A nonnegative IEEE binary64 value: `mant * 2 ^ exp2`, or +infinity.
The pair is not kept canonical; `F64.toRat` gives the denoted value. -/
inductive F64 where
  | finite (mant : ℕ) (exp2 : ℤ)
  | inf
  deriving DecidableEq, Repr

/-- The rational value a finite `F64` denotes (infinity is mapped to 0;
nothing reads it back). -/
def F64.toRat : F64 → ℚ
  | .finite m p =>
    if 0 ≤ p then mkRat ((m * 2 ^ p.toNat : ℕ) : ℤ) 1
    else mkRat (m : ℤ) (2 ^ (-p).toNat)
  | .inf => 0

/-- ⌊log₂ n⌋ by fuel recursion; `n` itself is enough fuel. -/
def log2fuel : ℕ → ℕ → ℕ
  | 0, _ => 0
  | fuel + 1, n => if n ≤ 1 then 0 else log2fuel fuel (n / 2) + 1

/-- ⌊log₂ n⌋ for n ≥ 1. -/
def nlog2 (n : ℕ) : ℕ := log2fuel n n

/-- Round N / D to the nearest integer, ties to even (for D ≥ 1). -/
def rdivEven (N D : ℕ) : ℕ :=
  let n := N / D
  let r := N % D
  if D < 2 * r then n + 1
  else if 2 * r < D then n
  else if n % 2 = 1 then n + 1 else n

/-- Whether 2 ^ c ≤ N / D, for N, D ≥ 1. -/
def pow2Le (c : ℤ) (N D : ℕ) : Bool :=
  if 0 ≤ c then 2 ^ c.toNat * D ≤ N else D ≤ 2 ^ (-c).toNat * N

/-- ⌊log₂ (N / D)⌋ for N, D ≥ 1. -/
def ratLog2 (N D : ℕ) : ℤ :=
  let c : ℤ := (nlog2 N : ℤ) - (nlog2 D : ℤ)
  if pow2Le c N D then c else c - 1

/-- Whether m * 2 ^ p reaches the binary64 overflow threshold 2 ^ 1024:
with a = ⌊log₂ m⌋, the value lies in [2 ^ (a + p), 2 ^ (a + p + 1)), so
this holds exactly when a + p ≥ 1024. -/
def overflows (m : ℕ) (p : ℤ) : Bool :=
  if m = 0 then false else 1024 ≤ (nlog2 m : ℤ) + p

/-- Round the positive rational N / D (N, D ≥ 1) to the nearest
binary64: 53 significant bits at normal exponents, the 2 ^ (-1074) grid
in the subnormal range, ties to even, +infinity at and above the
overflow threshold. -/
def roundF64 (N D : ℕ) : F64 :=
  if N = 0 then .finite 0 0
  else
    let E := ratLog2 N D
    let p := if E - 52 ≤ -1074 then (-1074 : ℤ) else E - 52
    let m := if 0 ≤ p then rdivEven N (D * 2 ^ p.toNat)
             else rdivEven (N * 2 ^ (-p).toNat) D
    if overflows m p then .inf else .finite m p

/-- Python float(n) of a nonnegative int: exact up to 2 ^ 53, rounded
above; from 2 ^ 1024 on CPython raises OverflowError, modelled as
infinity, which the callers turn into the error path. -/
def natToF64 (n : ℕ) : F64 := roundF64 n 1

/-- Round the exact dyadic m * 2 ^ p to binary64. -/
def roundDyadic (m : ℕ) (p : ℤ) : F64 :=
  if 0 ≤ p then roundF64 (m * 2 ^ p.toNat) 1 else roundF64 m (2 ^ (-p).toNat)

/-- IEEE binary64 multiplication of nonnegative values: the exact
product, rounded once.  (The one nan corner, 0 * inf, is mapped to
infinity; in the program both raise and take the same except path.) -/
def fmulF64 : F64 → F64 → F64
  | .inf, _ => .inf
  | _, .inf => .inf
  | .finite m1 p1, .finite m2 p2 =>
    if m1 = 0 ∨ m2 = 0 then .finite 0 0
    else roundDyadic (m1 * m2) (p1 + p2)

/-- `int()` of a nonnegative double: truncation; `none` for infinity
(Python raises OverflowError). -/
def truncF64 : F64 → Option ℤ
  | .inf => none
  | .finite m p =>
    some (if 0 ≤ p then ((m * 2 ^ p.toNat : ℕ) : ℤ) else ((m / 2 ^ (-p).toNat : ℕ) : ℤ))

/-- `aspect_ratio = img.height / img.width` (line 37): CPython division
of nonnegative ints is the correctly rounded binary64 quotient.  The
caller guards width ≠ 0 (ZeroDivisionError). -/
def aspect_ratio (width height : ℕ) : F64 := roundF64 height width

/-- `target_height = int(target_width * aspect_ratio)` (line 38):
convert the int `target_width` to a double, multiply in binary64,
truncate.  `none` models the exception raised when a value leaves the
double range. -/
def target_height (width height target_width : ℕ) : Option ℤ :=
  truncF64 (fmulF64 (natToF64 target_width) (aspect_ratio width height))

/-- `resize_image` (lines 24-52), applied to the outcome of
`Image.open(image_path)`.  A zero-width source raises
ZeroDivisionError in the aspect-ratio computation; the height is the
binary64 computation of line 38 (`none` = float-range exception);
Pillow raises ValueError unless both target dimensions are at least 1;
the resize keeps the color mode; modes RGBA and P are then converted
to RGB (line 44); the JPEG save succeeds exactly on the modes the
encoder accepts, with quality 85 and optimize on (line 49). -/
def resize_image (opened : Except PILError SourceImage) (target_width : ℕ) :
    Except PILError JpegBuffer :=
  match opened with
  | .error e => .error e
  | .ok img =>
    if img.width = 0 then .error .zeroDivision
    else
      match target_height img.width img.height target_width with
      | none => .error .floatRange
      | some th =>
        if target_width = 0 ∨ th < 1 then .error .invalidResizeSize
        else
          let mode := if img.mode = .RGBA ∨ img.mode = .P then ImageMode.RGB else img.mode
          if mode.jpegSavable then .ok ⟨target_width, th.toNat, mode, 85, true⟩
          else .error .cannotWriteAsJpeg

/-- Modelled from the spec: the height the spec prescribes,
"round(target_width * original_height / original_width)",
round-to-nearest.  Stated for comparison with `target_height`, which is
translated from the source. -/
def spec_height (width height target_width : ℕ) : ℤ :=
  round ((target_width : ℚ) * (height : ℚ) / (width : ℚ))

/-- `S3_ENDPOINT` (line 18). -/
def S3_ENDPOINT : String := "https://s3.timeweb.cloud"

/-- `S3_BUCKET` (line 19), the default of the `--bucket` option. -/
def S3_BUCKET : String := "302f9aa7-62c4d4d3-ccfd-4077-86c8-cca52e0da376"

/-- The bucket the command uses: the `--bucket` value when supplied,
else the `S3_BUCKET` default (lines 116-120). -/
def effectiveBucket : Option String → String
  | none => S3_BUCKET
  | some b => b

/-- Python truthiness of an optional string: `None` and the empty
string are falsy, any other string is truthy. -/
def truthy : Option String → Bool
  | none => false
  | some s => !s.isEmpty

/-- Turn an environment variable that is set to the empty string into
an unset one, leaving every other value unchanged.  Used to state that
the program treats the two identically. -/
def unsetEmpty (v : Option String) : Option String :=
  if v = some "" then none else v

/-- One entry of the manifest `images` sequence; `.get` on a missing
key yields `None`, modelled as `none`. -/
structure ImageEntry where
  url : Option String
  preview_url : Option String
  deriving DecidableEq, Repr

/-- A parsed YAML manifest as the program reads it: the value of the
top-level `images` key, `none` when the key is absent. -/
structure Manifest where
  images : Option (List ImageEntry)
  deriving DecidableEq, Repr

/-- The process environment variables the program reads (lines 65-66);
`none` means unset. -/
structure Env where
  s3_access_key : Option String
  s3_secret_key : Option String
  deriving DecidableEq, Repr

/-- Observable events of one run, in order of occurrence.  `echo` is a
line on stdout, `errEcho` a line on stderr; `resizeCall` is a call of
`resize_image`; `openImage` is the `Image.open` inside it;
`createClient` is the construction of the boto3 client with its
endpoint and addressing style; `uploadAttempt` is the network call
`upload_fileobj` with its bucket, key and ExtraArgs; `deleteObject`
would be a rollback deletion, which the program never performs. -/
inductive Event where
  | echo (msg : String)
  | errEcho (msg : String)
  | resizeCall (width : ℕ)
  | openImage
  | createClient (endpoint : String) (addressing : String)
  | uploadAttempt (bucket : String) (key : String) (extraArgs : List (String × String))
  | deleteObject (bucket : String) (key : String)
  deriving DecidableEq, Repr

/-- The outcomes of this run's interactions with the outside world:
what `yaml.safe_load` returns (or that it raises YAMLError), what
`Image.open` returns (or raises), and whether the network upload of a
given key succeeds. -/
structure World where
  manifest : Except Unit Manifest
  image : Except PILError SourceImage
  uploadOk : String → Bool
  env : Env

/-- Stderr message of line 69. -/
def credsErrMsg : String :=
  "✗ Error: S3_ACCESS_KEY and S3_SECRET_KEY environment variables must be set"

/-- Stderr message of line 138. -/
def noImagesMsg : String := "✗ Error: No \x27images\x27 list found in YAML file"

/-- Stderr message of line 143, with the index and the length
interpolated. -/
def indexErrMsg (index : ℤ) (n : ℕ) : String :=
  "✗ Error: Index " ++ toString index ++ " out of range. Found " ++ toString n ++ " images."

/-- Stderr message of line 152. -/
def fieldErrMsg : String := "✗ Error: \x27url\x27 or \x27preview_url\x27 not found in image entry"

/-- Stdout message of line 88. -/
def uploadedMsg (bucket s3_key : String) : String :=
  "  ✓ Uploaded to s3://" ++ bucket ++ "/" ++ s3_key

/-- The ExtraArgs of the upload call (line 86): content type
image/jpeg and nothing else. -/
def jpegExtraArgs : List (String × String) := [("ContentType", "image/jpeg")]

/-- The extra stderr line printed by the `except Exception` clause
(line 182) when it re-catches a `typer.Exit` raised inside the try
block: `typer.Exit` subclasses RuntimeError and its str() is empty, so
the line is exactly the prefix with nothing after it. -/
def exitCatchMsg : String := "✗ Error: "

/-- Stderr line standing for the `except` clauses reporting a true
exception (lines 175-183); the real text appends str(e) to the prefix
and varies with the exception, which no claim inspects. -/
def excMsg : String := "✗ Error"

/-- `upload_to_s3` (lines 55-88): read both credentials from the
environment; if either is falsy, print the error and raise
`typer.Exit(1)` before creating any client; otherwise create the client
against the fixed endpoint with path-style addressing and attempt the
upload, whose success the world decides.  Returns the events emitted
and whether the call returned normally. -/
def upload_to_s3 (w : World) (_file_obj : JpegBuffer) (s3_key bucket : String) :
    List Event × Bool :=
  if truthy w.env.s3_access_key && truthy w.env.s3_secret_key then
    ([.createClient S3_ENDPOINT "path",
      .uploadAttempt bucket s3_key jpegExtraArgs] ++
        (if w.uploadOk s3_key then [.echo (uploadedMsg bucket s3_key)] else []),
     w.uploadOk s3_key)
  else
    ([.errEcho credsErrMsg], false)

/-- Reasons the manifest-loading block (lines 136-154) aborts. -/
inductive LoadErr where
  | missingImages
  | indexOutOfRange
  | missingField
  deriving DecidableEq, Repr

/-- Lines 136-154 of the command body: take the `images` value (absent
and empty are both falsy), check the index range, select the entry and
read its `url` and `preview_url`.  Returns the loaded pair or the
error with its stderr message. -/
def loadEntry (summit_data : Manifest) (index : ℤ) :
    Except (LoadErr × String) (String × String) :=
  let images := summit_data.images.getD []
  if images.length = 0 then
    .error (.missingImages, noImagesMsg)
  else if index < 0 ∨ (images.length : ℤ) ≤ index then
    .error (.indexOutOfRange, indexErrMsg index images.length)
  else
    let entry := images.getD index.toNat ⟨none, none⟩
    if truthy entry.url && truthy entry.preview_url then
      .ok (entry.url.getD "", entry.preview_url.getD "")
    else
      .error (.missingField, fieldErrMsg)

/-- The `upload` command body (lines 129-183): parse the manifest, load
the entry, resize twice (main 1600 then preview 75), upload twice
(main to `url` then preview to `preview_url`).  The `typer.Exit`
raised on the loading and credential failures is re-caught by
`except Exception`, which prints `exitCatchMsg` before the process
exits 1; true exceptions (YAML, file, resize, upload) print one
`except` line; full success exits 0.  Progress echo lines that carry
no information the claims use are omitted; the trace keeps every
stderr message and every action.  Returns the event trace and the
process exit code. -/
def runUpload (w : World) (index : ℤ) (bucket : String) : List Event × ℕ :=
  match w.manifest with
  | .error _ => ([.errEcho "✗ Error parsing YAML file"], 1)
  | .ok summit_data =>
    match loadEntry summit_data index with
    | .error (_, msg) => ([.errEcho msg, .errEcho exitCatchMsg], 1)
    | .ok (url, preview_url) =>
      match resize_image w.image 1600 with
      | .error _ => ([.resizeCall 1600, .openImage, .errEcho excMsg], 1)
      | .ok main_image =>
        match resize_image w.image 75 with
        | .error _ =>
          ([.resizeCall 1600, .openImage, .resizeCall 75, .openImage,
            .errEcho excMsg], 1)
        | .ok preview_image =>
          let pre : List Event :=
            [.resizeCall 1600, .openImage, .resizeCall 75, .openImage]
          let credOk := truthy w.env.s3_access_key && truthy w.env.s3_secret_key
          let (ev₁, ok₁) := upload_to_s3 w main_image url bucket
          if ok₁ then
            let (ev₂, ok₂) := upload_to_s3 w preview_image preview_url bucket
            if ok₂ then
              (pre ++ ev₁ ++ ev₂ ++ [.echo "✓ Successfully uploaded images to S3!"], 0)
            else
              (pre ++ ev₁ ++ ev₂ ++ [.errEcho excMsg], 1)
          else
            (pre ++ ev₁ ++ [.errEcho (if credOk then excMsg else exitCatchMsg)], 1)

/-- The file-system state click finds behind a path option. -/
structure PathState where
  pathExists : Bool
  isDir : Bool
  readable : Bool
  deriving DecidableEq, Repr

/-- One shell invocation of the CLI: for each option, whether it was
supplied and what click finds.  `index = some none` models a supplied
value that does not parse as an integer. -/
structure CliInvocation where
  image_path : Option PathState
  summit_path : Option PathState
  index : Option (Option ℤ)
  bucket : Option String
  deriving DecidableEq, Repr

/-- The click checks behind `exists=True, file_okay=True,
dir_okay=False, readable=True` (lines 93-110). -/
def pathOk (st : PathState) : Bool := st.pathExists && !st.isDir && st.readable

/-- Stderr line standing for the click usage report of a validation
failure; its exact wording varies with the failure and no claim
inspects it. -/
def usageErrMsg : String := "Usage error"

/-- CLI validation (lines 92-120): both path options present and
passing the click checks, the index present and an integer; the bucket
defaults to `S3_BUCKET`.  Returns the parsed index and effective
bucket, or `none` on any usage error. -/
def parseCli (c : CliInvocation) : Option (ℤ × String) :=
  match c.image_path, c.summit_path, c.index with
  | some ip, some sp, some (some i) =>
    if pathOk ip && pathOk sp then some (i, effectiveBucket c.bucket) else none
  | _, _, _ => none

/-- The whole command as invoked from the shell: click validates the
options first and, on a usage error, reports it and exits with code 2
without entering the command body; otherwise the body runs. -/
def runCli (c : CliInvocation) (w : World) : List Event × ℕ :=
  match parseCli c with
  | some (i, b) => runUpload w i b
  | none => ([.errEcho usageErrMsg], 2)

/-- The stderr lines of a trace. -/
def stderrOf : List Event → List String
  | [] => []
  | .errEcho m :: es => m :: stderrOf es
  | _ :: es => stderrOf es

/-- Whether an event is an action on the image or on storage (resize
call, upload attempt, or deletion), as opposed to console output or
client construction. -/
def isAction : Event → Bool
  | .resizeCall _ => true
  | .uploadAttempt _ _ _ => true
  | .deleteObject _ _ => true
  | _ => false

/-- The action events of a trace, in order. -/
def actionEvents (tr : List Event) : List Event := tr.filter isAction

/-- `msgContains m sub`: `sub` occurs contiguously inside `m`. -/
def msgContains (m sub : String) : Prop := sub.data <:+: m.data

instance (m sub : String) : Decidable (msgContains m sub) :=
  List.decidableInfix sub.data m.data

/-! ## Helper lemmas -/

/-- The out-of-range message contains the decimal rendering of the
attempted index. -/
lemma indexErrMsg_has_index (i : ℤ) (n : ℕ) :
    msgContains (indexErrMsg i n) (toString i) := by
  refine ⟨"✗ Error: Index ".data,
    (" out of range. Found " ++ toString n ++ " images.").data, ?_⟩
  simp [indexErrMsg]

/-- The out-of-range message contains the decimal rendering of the
sequence length. -/
lemma indexErrMsg_has_length (i : ℤ) (n : ℕ) :
    msgContains (indexErrMsg i n) (toString n) := by
  refine ⟨("✗ Error: Index " ++ toString i ++ " out of range. Found ").data,
    " images.".data, ?_⟩
  simp [indexErrMsg]

/-- When either credential is falsy, any run exits 1 and its trace has
no upload attempt and no client creation. -/
lemma creds_falsy_run (w : World) (index : ℤ) (bucket : String)
    (h : truthy w.env.s3_access_key = false ∨ truthy w.env.s3_secret_key = false) :
    (runUpload w index bucket).2 = 1 ∧
    (∀ b k ex, Event.uploadAttempt b k ex ∉ (runUpload w index bucket).1) ∧
    (∀ e a, Event.createClient e a ∉ (runUpload w index bucket).1) := by
  have hcred : (truthy w.env.s3_access_key && truthy w.env.s3_secret_key) = false := by
    rcases h with h | h <;> simp [h]
  rcases hm : w.manifest with u | m
  · simp [runUpload, hm]
  · rcases hle : loadEntry m index with ⟨e, msg⟩ | ⟨url, purl⟩
    · simp [runUpload, hm, hle]
    · rcases h16 : resize_image w.image 1600 with e | b16
      · simp [runUpload, hm, hle, h16]
      · rcases h75 : resize_image w.image 75 with e | b75
        · simp [runUpload, hm, hle, h16, h75]
        · simp [runUpload, hm, hle, h16, h75, upload_to_s3, hcred]

/-! ## Claims -/

/-- C1 counterexample: a 3x2 source resized to width 4 gets height
`int(4 * (2/3)) = 2` while round(8/3) = 3, so the code does not round
to nearest; and an 800x232 source at width 1600 gets 463 — the double
nearest 232/800 lies below it, so the product is 463.99999999999994 —
while the exact ratio is 464 = round(464): the height is not even the
exact floor, it is the truncation of the binary64 product. -/
theorem C1_counterexample :
    (resize_image (.ok ⟨3, 2, .RGB⟩) 4 = .ok ⟨4, 2, .RGB, 85, true⟩ ∧
      spec_height 3 2 4 = 3 ∧ (2 : ℤ) ≠ 3) ∧
    (resize_image (.ok ⟨800, 232, .RGB⟩) 1600 = .ok ⟨1600, 463, .RGB, 85, true⟩ ∧
      spec_height 800 232 1600 = 464 ∧ (463 : ℤ) ≠ 464 ∧
      ((1600 * 232 / 800 : ℕ) : ℤ) = 464) := by
  refine ⟨⟨by decide, ?_, by decide⟩, by decide, ?_, by decide, by decide⟩
  · norm_num [spec_height, round_eq]
  · norm_num [spec_height, round_eq]

/-- C1 amended: whenever `resize_image` succeeds, the output width is
exactly the target width, and the output height is positive and is the
`int()` truncation of the IEEE binary64 product
`target_width * (original_height / original_width)` — not
round-to-nearest of the exact ratio, and (as the counterexample shows)
occasionally below even its exact floor. -/
theorem C1_resize_dims (img : SourceImage) (W : ℕ) (buf : JpegBuffer)
    (h : resize_image (.ok img) W = .ok buf) :
    buf.width = W ∧
    target_height img.width img.height W = some (buf.height : ℤ) ∧
    1 ≤ buf.height := by
  unfold resize_image at h
  by_cases h0 : img.width = 0
  · simp [h0] at h
  · simp only [h0, if_false] at h
    split at h
    · exact absurd h (by simp)
    · rename_i th hth
      split at h
      · exact absurd h (by simp)
      · rename_i hdeg
        push_neg at hdeg
        obtain ⟨hW, hth1⟩ := hdeg
        split at h <;> split at h
        · rw [Except.ok.injEq] at h
          subst h
          refine ⟨rfl, ?_, by simp; omega⟩
          rw [show (((th.toNat : ℕ) : ℤ)) = th from Int.toNat_of_nonneg (by omega)]
          exact hth
        · exact absurd h (by simp)
        · rw [Except.ok.injEq] at h
          subst h
          refine ⟨rfl, ?_, by simp; omega⟩
          rw [show (((th.toNat : ℕ) : ℤ)) = th from Int.toNat_of_nonneg (by omega)]
          exact hth
        · exact absurd h (by simp)

/-- C1 witness: a 3200x1800 RGB source resized to width 1600 gives a
1600-wide buffer whose positive height 900 is the binary64 truncation
value. -/
theorem C1_witness :
    (⟨1600, 900, .RGB, 85, true⟩ : JpegBuffer).width = 1600 ∧
    target_height 3200 1800 1600 =
      some ((⟨1600, 900, .RGB, 85, true⟩ : JpegBuffer).height : ℤ) ∧
    1 ≤ (⟨1600, 900, .RGB, 85, true⟩ : JpegBuffer).height :=
  C1_resize_dims ⟨3200, 1800, .RGB⟩ 1600 ⟨1600, 900, .RGB, 85, true⟩ (by decide)

/-- C2 counterexample: mode LA (grayscale with alpha) carries an alpha
channel, but the code only converts RGBA and P, so the JPEG save of an
LA image raises OSError instead of returning a buffer; and even a
converted mode can fail: a 10000x2 RGBA source at width 75 computes
height int(75 * (2/10000)) = 0 and Pillow rejects the zero dimension. -/
theorem C2_counterexample :
    (ImageMode.hasAlpha .LA = true ∧
      resize_image (.ok ⟨4, 4, .LA⟩) 2 = .error .cannotWriteAsJpeg) ∧
    resize_image (.ok ⟨10000, 2, .RGBA⟩) 75 = .error .invalidResizeSize :=
  ⟨⟨by decide, by decide⟩, by decide⟩

/-- C2 amended: for a source image whose mode is RGBA or P (the two
modes line 44 checks), the color mode never makes `resize_image`
fail — any failure comes from the file, the dimensions or the float
range, never from the JPEG encoder — and any buffer it returns has
been converted to RGB.  Other alpha-carrying modes such as LA are not
converted and fail to encode. -/
theorem C2_rgba_p_to_rgb (img : SourceImage) (W : ℕ)
    (hm : img.mode = .RGBA ∨ img.mode = .P) :
    (∀ e, resize_image (.ok img) W = .error e → e ≠ .cannotWriteAsJpeg) ∧
    (∀ buf, resize_image (.ok img) W = .ok buf → buf.mode = .RGB) := by
  have hmode : (if img.mode = .RGBA ∨ img.mode = .P then ImageMode.RGB else img.mode)
      = .RGB := if_pos hm
  unfold resize_image
  by_cases h0 : img.width = 0
  · simp [h0]
  · simp only [h0, if_false]
    rcases target_height img.width img.height W with _ | th
    · simp
    · by_cases hdeg : W = 0 ∨ th < 1
      · simp [hdeg]
      · simp [hdeg, hmode, ImageMode.jpegSavable]

/-- C2 witness: a 4x4 RGBA source at width 2 resizes without any
mode-caused failure, and in fact to an RGB JPEG buffer. -/
theorem C2_witness :
    (∀ e, resize_image (.ok ⟨4, 4, .RGBA⟩) 2 = .error e → e ≠ .cannotWriteAsJpeg) ∧
    (∀ buf, resize_image (.ok ⟨4, 4, .RGBA⟩) 2 = .ok buf → buf.mode = .RGB) :=
  C2_rgba_p_to_rgb ⟨4, 4, .RGBA⟩ 2 (Or.inl rfl)

/-- C3: when either credential environment variable is unset, the run
performs no network call (no upload attempt, no client creation) and
exits with code 1, whatever the manifest, image, index and bucket. -/
theorem C3_unset_creds (w : World) (index : ℤ) (bucket : String)
    (h : w.env.s3_access_key = none ∨ w.env.s3_secret_key = none) :
    (runUpload w index bucket).2 = 1 ∧
    (∀ b k ex, Event.uploadAttempt b k ex ∉ (runUpload w index bucket).1) ∧
    (∀ e a, Event.createClient e a ∉ (runUpload w index bucket).1) :=
  creds_falsy_run w index bucket (by rcases h with h | h <;> simp [h, truthy])

/-- C3 witness: a run with a valid one-entry manifest, a valid image,
a working network, but no access key, exits 1 without any upload
attempt or client creation. -/
theorem C3_witness :
    (runUpload ⟨.ok ⟨some [⟨some "a", some "b"⟩]⟩, .ok ⟨4, 4, .RGB⟩,
        fun _ => true, ⟨none, some "k"⟩⟩ 0 "bkt").2 = 1 ∧
    (∀ b k ex, Event.uploadAttempt b k ex ∉
      (runUpload ⟨.ok ⟨some [⟨some "a", some "b"⟩]⟩, .ok ⟨4, 4, .RGB⟩,
        fun _ => true, ⟨none, some "k"⟩⟩ 0 "bkt").1) ∧
    (∀ e a, Event.createClient e a ∉
      (runUpload ⟨.ok ⟨some [⟨some "a", some "b"⟩]⟩, .ok ⟨4, 4, .RGB⟩,
        fun _ => true, ⟨none, some "k"⟩⟩ 0 "bkt").1) :=
  C3_unset_creds _ 0 "bkt" (Or.inl rfl)

/-- Unsetting an empty-string variable does not change its Python
truthiness. -/
lemma truthy_unsetEmpty (v : Option String) : truthy (unsetEmpty v) = truthy v := by
  by_cases h : v = some ""
  · rw [h]; decide
  · simp [unsetEmpty, h]

/-- The run only observes the environment through the combined
truthiness of the two credentials. -/
lemma runUpload_env_congr (w : World) (env' : Env) (index : ℤ) (bucket : String)
    (hc : (truthy env'.s3_access_key && truthy env'.s3_secret_key) =
          (truthy w.env.s3_access_key && truthy w.env.s3_secret_key)) :
    runUpload { w with env := env' } index bucket = runUpload w index bucket := by
  rcases hm : w.manifest with u | m
  · simp [runUpload, hm]
  · rcases hle : loadEntry m index with ⟨e, msg⟩ | ⟨url, purl⟩
    · simp [runUpload, hm, hle]
    · rcases h16 : resize_image w.image 1600 with e | b16
      · simp [runUpload, hm, hle, h16]
      · rcases h75 : resize_image w.image 75 with e | b75
        · simp [runUpload, hm, hle, h16, h75]
        · simp [runUpload, hm, hle, h16, h75, upload_to_s3, hc]

/-- C10: a credential set to the empty string behaves exactly like an
unset one: the run is identical event for event, exits 1, and attempts
no upload and creates no client. -/
theorem C10_empty_string_creds (w : World) (index : ℤ) (bucket : String)
    (h : w.env.s3_access_key = some "" ∨ w.env.s3_secret_key = some "") :
    runUpload w index bucket =
      runUpload { w with env :=
        ⟨unsetEmpty w.env.s3_access_key, unsetEmpty w.env.s3_secret_key⟩ } index bucket ∧
    (runUpload w index bucket).2 = 1 ∧
    (∀ b k ex, Event.uploadAttempt b k ex ∉ (runUpload w index bucket).1) ∧
    (∀ e a, Event.createClient e a ∉ (runUpload w index bucket).1) := by
  refine ⟨(runUpload_env_congr w _ index bucket ?_).symm,
          creds_falsy_run w index bucket ?_⟩
  · simp [truthy_unsetEmpty]
  · rcases h with h | h
    · exact Or.inl (by rw [h]; decide)
    · exact Or.inr (by rw [h]; decide)

/-- C10 witness: a run with the access key set to the empty string is
the same as with it unset, exits 1, and performs no network call. -/
theorem C10_witness :
    runUpload ⟨.ok ⟨some [⟨some "a", some "b"⟩]⟩, .ok ⟨4, 4, .RGB⟩,
        fun _ => true, ⟨some "", some "k"⟩⟩ 0 "bkt" =
      runUpload ⟨.ok ⟨some [⟨some "a", some "b"⟩]⟩, .ok ⟨4, 4, .RGB⟩,
        fun _ => true, ⟨unsetEmpty (some ""), unsetEmpty (some "k")⟩⟩ 0 "bkt" ∧
    (runUpload ⟨.ok ⟨some [⟨some "a", some "b"⟩]⟩, .ok ⟨4, 4, .RGB⟩,
        fun _ => true, ⟨some "", some "k"⟩⟩ 0 "bkt").2 = 1 ∧
    (∀ b k ex, Event.uploadAttempt b k ex ∉
      (runUpload ⟨.ok ⟨some [⟨some "a", some "b"⟩]⟩, .ok ⟨4, 4, .RGB⟩,
        fun _ => true, ⟨some "", some "k"⟩⟩ 0 "bkt").1) ∧
    (∀ e a, Event.createClient e a ∉
      (runUpload ⟨.ok ⟨some [⟨some "a", some "b"⟩]⟩, .ok ⟨4, 4, .RGB⟩,
        fun _ => true, ⟨some "", some "k"⟩⟩ 0 "bkt").1) :=
  C10_empty_string_creds _ 0 "bkt" (Or.inl rfl)

/-- C4 counterexample: against a manifest whose `images` sequence is
empty (length 0), index 5 is out of range, yet the run prints the
missing-images error, whose text contains neither the attempted index
5 nor the length 0: the emptiness check fires before the range check. -/
theorem C4_counterexample :
    (runUpload ⟨.ok ⟨some []⟩, .ok ⟨4, 4, .RGB⟩, fun _ => true,
        ⟨some "k", some "s"⟩⟩ 5 "bkt").2 = 1 ∧
    stderrOf (runUpload ⟨.ok ⟨some []⟩, .ok ⟨4, 4, .RGB⟩, fun _ => true,
        ⟨some "k", some "s"⟩⟩ 5 "bkt").1 = [noImagesMsg, exitCatchMsg] ∧
    (∀ msg ∈ stderrOf (runUpload ⟨.ok ⟨some []⟩, .ok ⟨4, 4, .RGB⟩, fun _ => true,
        ⟨some "k", some "s"⟩⟩ 5 "bkt").1, ¬ msgContains msg (toString (5 : ℤ))) := by
  refine ⟨?_, ?_, ?_⟩
  · rfl
  · rfl
  · decide

/-- C4 amended: for a manifest whose `images` sequence is nonempty with
length n, any index below 0 or at least n makes the run exit 1 with the
out-of-range message, which contains both the attempted index and n,
after zero resize calls and zero upload attempts.  (With an empty
sequence the missing-images error fires instead.) -/
theorem C4_index_out_of_range (w : World) (index : ℤ) (bucket : String)
    (m : Manifest) (l : List ImageEntry)
    (hm : w.manifest = .ok m) (hl : m.images = some l) (hne : l ≠ [])
    (hi : index < 0 ∨ (l.length : ℤ) ≤ index) :
    (runUpload w index bucket).2 = 1 ∧
    stderrOf (runUpload w index bucket).1 = [indexErrMsg index l.length, exitCatchMsg] ∧
    msgContains (indexErrMsg index l.length) (toString index) ∧
    msgContains (indexErrMsg index l.length) (toString l.length) ∧
    (∀ W, Event.resizeCall W ∉ (runUpload w index bucket).1) ∧
    (∀ b k ex, Event.uploadAttempt b k ex ∉ (runUpload w index bucket).1) := by
  have h0 : l.length ≠ 0 := by simpa using hne
  have hload : loadEntry m index = .error (.indexOutOfRange, indexErrMsg index l.length) := by
    unfold loadEntry
    rw [hl]
    simp only [Option.getD_some]
    rw [if_neg h0, if_pos hi]
  refine ⟨?_, ?_, indexErrMsg_has_index index l.length,
    indexErrMsg_has_length index l.length, ?_, ?_⟩ <;>
    simp [runUpload, hm, hload, stderrOf]

/-- C4 witness: index 5 against a two-entry manifest exits 1 with a
message containing "5" and "2", with no resize and no upload. -/
theorem C4_witness :
    (runUpload ⟨.ok ⟨some [⟨some "a", some "b"⟩, ⟨some "c", some "d"⟩]⟩,
        .ok ⟨4, 4, .RGB⟩, fun _ => true, ⟨some "k", some "s"⟩⟩ 5 "bkt").2 = 1 ∧
    stderrOf (runUpload ⟨.ok ⟨some [⟨some "a", some "b"⟩, ⟨some "c", some "d"⟩]⟩,
        .ok ⟨4, 4, .RGB⟩, fun _ => true, ⟨some "k", some "s"⟩⟩ 5 "bkt").1 =
      [indexErrMsg 5 2, exitCatchMsg] ∧
    msgContains (indexErrMsg 5 2) (toString (5 : ℤ)) ∧
    msgContains (indexErrMsg 5 2) (toString (2 : ℕ)) ∧
    (∀ W, Event.resizeCall W ∉
      (runUpload ⟨.ok ⟨some [⟨some "a", some "b"⟩, ⟨some "c", some "d"⟩]⟩,
        .ok ⟨4, 4, .RGB⟩, fun _ => true, ⟨some "k", some "s"⟩⟩ 5 "bkt").1) ∧
    (∀ b k ex, Event.uploadAttempt b k ex ∉
      (runUpload ⟨.ok ⟨some [⟨some "a", some "b"⟩, ⟨some "c", some "d"⟩]⟩,
        .ok ⟨4, 4, .RGB⟩, fun _ => true, ⟨some "k", some "s"⟩⟩ 5 "bkt").1) :=
  C4_index_out_of_range
    ⟨.ok ⟨some [⟨some "a", some "b"⟩, ⟨some "c", some "d"⟩]⟩, .ok ⟨4, 4, .RGB⟩,
      fun _ => true, ⟨some "k", some "s"⟩⟩ 5 "bkt"
    ⟨some [⟨some "a", some "b"⟩, ⟨some "c", some "d"⟩]⟩
    [⟨some "a", some "b"⟩, ⟨some "c", some "d"⟩]
    rfl rfl (by decide) (by decide)

/-- C5: when the manifest parses but its `images` key is absent or maps
to the empty sequence, the run exits 1 with the missing-images error and
never opens the image file: no open, no resize, no upload attempt. -/
theorem C5_missing_images (w : World) (index : ℤ) (bucket : String) (m : Manifest)
    (hm : w.manifest = .ok m) (h : m.images = none ∨ m.images = some []) :
    (runUpload w index bucket).2 = 1 ∧
    stderrOf (runUpload w index bucket).1 = [noImagesMsg, exitCatchMsg] ∧
    Event.openImage ∉ (runUpload w index bucket).1 ∧
    (∀ W, Event.resizeCall W ∉ (runUpload w index bucket).1) ∧
    (∀ b k ex, Event.uploadAttempt b k ex ∉ (runUpload w index bucket).1) := by
  have hload : loadEntry m index = .error (.missingImages, noImagesMsg) := by
    rcases h with h | h <;> simp [loadEntry, h]
  refine ⟨?_, ?_, ?_, ?_, ?_⟩ <;> simp [runUpload, hm, hload, stderrOf]

/-- C5 witness: a manifest without an `images` key, at index 0, exits 1
with the missing-images error and touches neither image nor storage. -/
theorem C5_witness :
    (runUpload ⟨.ok ⟨none⟩, .ok ⟨4, 4, .RGB⟩, fun _ => true,
        ⟨some "k", some "s"⟩⟩ 0 "bkt").2 = 1 ∧
    stderrOf (runUpload ⟨.ok ⟨none⟩, .ok ⟨4, 4, .RGB⟩, fun _ => true,
        ⟨some "k", some "s"⟩⟩ 0 "bkt").1 = [noImagesMsg, exitCatchMsg] ∧
    Event.openImage ∉ (runUpload ⟨.ok ⟨none⟩, .ok ⟨4, 4, .RGB⟩, fun _ => true,
        ⟨some "k", some "s"⟩⟩ 0 "bkt").1 ∧
    (∀ W, Event.resizeCall W ∉ (runUpload ⟨.ok ⟨none⟩, .ok ⟨4, 4, .RGB⟩,
        fun _ => true, ⟨some "k", some "s"⟩⟩ 0 "bkt").1) ∧
    (∀ b k ex, Event.uploadAttempt b k ex ∉ (runUpload ⟨.ok ⟨none⟩,
        .ok ⟨4, 4, .RGB⟩, fun _ => true, ⟨some "k", some "s"⟩⟩ 0 "bkt").1) :=
  C5_missing_images _ 0 "bkt" _ rfl (Or.inl rfl)

/-- C6: for a valid manifest and an in-range index whose entry holds
nonempty `url` and `preview_url`, the loading block returns exactly
those two strings, unmodified. -/
theorem C6_loader_exact (m : Manifest) (l : List ImageEntry) (index : ℤ)
    (u p : String) (hl : m.images = some l)
    (h0 : 0 ≤ index) (hlen : index < (l.length : ℤ))
    (hu : (l.getD index.toNat ⟨none, none⟩).url = some u) (hu' : u ≠ "")
    (hp : (l.getD index.toNat ⟨none, none⟩).preview_url = some p) (hp' : p ≠ "") :
    loadEntry m index = .ok (u, p) := by
  have hne : l.length ≠ 0 := by omega
  have hcond : (truthy (l.getD index.toNat ⟨none, none⟩).url &&
      truthy (l.getD index.toNat ⟨none, none⟩).preview_url) = true := by
    rw [hu, hp]
    simp only [truthy, Bool.and_eq_true, Bool.not_eq_true']
    constructor
    · by_contra hc
      exact hu' ((String.isEmpty_iff u).mp (by simpa using hc))
    · by_contra hc
      exact hp' ((String.isEmpty_iff p).mp (by simpa using hc))
  unfold loadEntry
  rw [hl]
  simp only [Option.getD_some]
  rw [if_neg hne, if_neg (by push_neg; exact ⟨h0, hlen⟩), if_pos hcond, hu, hp]
  rfl

/-- C6 witness: index 0 of a one-entry manifest returns exactly the
stored key strings. -/
theorem C6_witness :
    loadEntry ⟨some [⟨some "a/main.jpg", some "a/prev.jpg"⟩]⟩ 0 =
      .ok ("a/main.jpg", "a/prev.jpg") :=
  C6_loader_exact _ [⟨some "a/main.jpg", some "a/prev.jpg"⟩] 0
    "a/main.jpg" "a/prev.jpg" rfl (by decide) (by decide) rfl
    (by decide) rfl (by decide)

/-- C7: in every run that loads an entry `(u, p)`, the action trace is a
prefix of [resize 1600, resize 75, upload u, upload p]: both resizes
precede any upload, the main upload precedes the preview upload; if the
main upload fails the preview upload is never attempted; and no
deletion (rollback) ever occurs. -/
theorem C7_event_order (w : World) (index : ℤ) (bucket : String)
    (m : Manifest) (u p : String)
    (hm : w.manifest = .ok m) (hle : loadEntry m index = .ok (u, p)) :
    actionEvents (runUpload w index bucket).1 <+:
      [Event.resizeCall 1600, Event.resizeCall 75,
       Event.uploadAttempt bucket u jpegExtraArgs,
       Event.uploadAttempt bucket p jpegExtraArgs] ∧
    (w.uploadOk u = false →
      actionEvents (runUpload w index bucket).1 <+:
        [Event.resizeCall 1600, Event.resizeCall 75,
         Event.uploadAttempt bucket u jpegExtraArgs]) ∧
    (∀ b k, Event.deleteObject b k ∉ (runUpload w index bucket).1) := by
  rcases h16 : resize_image w.image 1600 with e | b16
  · refine ⟨⟨[Event.resizeCall 75, Event.uploadAttempt bucket u jpegExtraArgs,
        Event.uploadAttempt bucket p jpegExtraArgs], ?_⟩,
      fun _ => ⟨[Event.resizeCall 75, Event.uploadAttempt bucket u jpegExtraArgs], ?_⟩,
      ?_⟩ <;>
      simp [runUpload, hm, hle, h16, actionEvents, isAction]
  · rcases h75 : resize_image w.image 75 with e | b75
    · refine ⟨⟨[Event.uploadAttempt bucket u jpegExtraArgs,
          Event.uploadAttempt bucket p jpegExtraArgs], ?_⟩,
        fun _ => ⟨[Event.uploadAttempt bucket u jpegExtraArgs], ?_⟩, ?_⟩ <;>
        simp [runUpload, hm, hle, h16, h75, actionEvents, isAction]
    · rcases hcr : (truthy w.env.s3_access_key && truthy w.env.s3_secret_key) with _ | _
      · refine ⟨⟨[Event.uploadAttempt bucket u jpegExtraArgs,
            Event.uploadAttempt bucket p jpegExtraArgs], ?_⟩,
          fun _ => ⟨[Event.uploadAttempt bucket u jpegExtraArgs], ?_⟩, ?_⟩ <;>
          simp [runUpload, hm, hle, h16, h75, upload_to_s3, hcr, actionEvents, isAction]
      · rcases hu : w.uploadOk u with _ | _
        · refine ⟨⟨[Event.uploadAttempt bucket p jpegExtraArgs], ?_⟩,
            fun _ => ⟨[], ?_⟩, ?_⟩ <;>
            simp [runUpload, hm, hle, h16, h75, upload_to_s3, hcr, hu,
              actionEvents, isAction]
        · rcases hp : w.uploadOk p with _ | _
          · refine ⟨⟨[], ?_⟩, fun hfalse => absurd hfalse (by simp [hu]), ?_⟩ <;>
              simp [runUpload, hm, hle, h16, h75, upload_to_s3, hcr, hu, hp,
                actionEvents, isAction]
          · refine ⟨⟨[], ?_⟩, fun hfalse => absurd hfalse (by simp [hu]), ?_⟩ <;>
              simp [runUpload, hm, hle, h16, h75, upload_to_s3, hcr, hu, hp,
                actionEvents, isAction]

/-- C7 witness: a run with good credentials, a working network and a
one-entry manifest has exactly the canonical action order, with all the
stated ordering properties. -/
theorem C7_witness :
    actionEvents (runUpload ⟨.ok ⟨some [⟨some "a", some "b"⟩]⟩, .ok ⟨4, 4, .RGB⟩,
        fun _ => true, ⟨some "k", some "s"⟩⟩ 0 "bkt").1 <+:
      [Event.resizeCall 1600, Event.resizeCall 75,
       Event.uploadAttempt "bkt" "a" jpegExtraArgs,
       Event.uploadAttempt "bkt" "b" jpegExtraArgs] ∧
    ((⟨.ok ⟨some [⟨some "a", some "b"⟩]⟩, .ok ⟨4, 4, .RGB⟩,
        fun _ => true, ⟨some "k", some "s"⟩⟩ : World).uploadOk "a" = false →
      actionEvents (runUpload ⟨.ok ⟨some [⟨some "a", some "b"⟩]⟩, .ok ⟨4, 4, .RGB⟩,
          fun _ => true, ⟨some "k", some "s"⟩⟩ 0 "bkt").1 <+:
        [Event.resizeCall 1600, Event.resizeCall 75,
         Event.uploadAttempt "bkt" "a" jpegExtraArgs]) ∧
    (∀ b k, Event.deleteObject b k ∉
      (runUpload ⟨.ok ⟨some [⟨some "a", some "b"⟩]⟩, .ok ⟨4, 4, .RGB⟩,
        fun _ => true, ⟨some "k", some "s"⟩⟩ 0 "bkt").1) :=
  C7_event_order ⟨.ok ⟨some [⟨some "a", some "b"⟩]⟩, .ok ⟨4, 4, .RGB⟩,
      fun _ => true, ⟨some "k", some "s"⟩⟩ 0 "bkt"
    ⟨some [⟨some "a", some "b"⟩]⟩ "a" "b" rfl rfl

/-- Inside the command body, the exit code is 0 or 1, and 0 exactly
when every step succeeds: manifest parse, entry load, both resizes,
both credentials truthy, both uploads. -/
lemma runUpload_exit_iff (w : World) (index : ℤ) (bucket : String) :
    ((runUpload w index bucket).2 = 0 ∨ (runUpload w index bucket).2 = 1) ∧
    ((runUpload w index bucket).2 = 0 ↔
      ∃ m u p b16 b75, w.manifest = .ok m ∧ loadEntry m index = .ok (u, p) ∧
        resize_image w.image 1600 = .ok b16 ∧ resize_image w.image 75 = .ok b75 ∧
        truthy w.env.s3_access_key = true ∧ truthy w.env.s3_secret_key = true ∧
        w.uploadOk u = true ∧ w.uploadOk p = true) := by
  rcases hm : w.manifest with e | m
  · simp [runUpload, hm]
  · rcases hle : loadEntry m index with ⟨e, msg⟩ | ⟨u, p⟩
    · simp [runUpload, hm, hle]
    · rcases h16 : resize_image w.image 1600 with e | b16
      · simp [runUpload, hm, hle, h16]
      · rcases h75 : resize_image w.image 75 with e | b75
        · simp [runUpload, hm, hle, h16, h75]
        · rcases hta : truthy w.env.s3_access_key with _ | _
          · simp [runUpload, hm, hle, h16, h75, upload_to_s3, hta]
          · rcases hts : truthy w.env.s3_secret_key with _ | _
            · simp [runUpload, hm, hle, h16, h75, upload_to_s3, hta, hts]
            · rcases hu : w.uploadOk u with _ | _
              · simp [runUpload, hm, hle, h16, h75, upload_to_s3, hta, hts, hu]
              · rcases hp : w.uploadOk p with _ | _
                · simp [runUpload, hm, hle, h16, h75, upload_to_s3, hta, hts, hu, hp]
                · simp [runUpload, hm, hle, h16, h75, upload_to_s3, hta, hts, hu, hp]
                  exact ⟨u, p, ⟨rfl, rfl⟩, hu, hp⟩

/-- C8 counterexample: a nonexistent `--image-path` is a click usage
error, handled by the framework before the try/except of the command
body: the process exits with code 2, not 1. -/
theorem C8_counterexample :
    runCli ⟨some ⟨false, false, false⟩, some ⟨true, false, true⟩, some (some 0), none⟩
        ⟨.ok ⟨some [⟨some "a", some "b"⟩]⟩, .ok ⟨4, 4, .RGB⟩, fun _ => true,
          ⟨some "k", some "s"⟩⟩ =
      ([.errEcho usageErrMsg], 2) ∧ (2 : ℕ) ≠ 1 :=
  ⟨rfl, by decide⟩

/-- C8 amended: the exit code is 0, 1 or 2.  It is 2 exactly on a CLI
usage error (missing or invalid option, bad path), which click reports
before the command body runs; it is 0 exactly when validation passes
and every later step succeeds (manifest parse, entry load, both
resizes, both credentials truthy, both uploads); every failure inside
the command body is caught by the try/except and exits 1. -/
theorem C8_exit_codes (c : CliInvocation) (w : World) :
    ((runCli c w).2 = 0 ∨ (runCli c w).2 = 1 ∨ (runCli c w).2 = 2) ∧
    ((runCli c w).2 = 2 ↔ parseCli c = none) ∧
    ((runCli c w).2 = 0 ↔ ∃ i b, parseCli c = some (i, b) ∧
      ∃ m u p b16 b75, w.manifest = .ok m ∧ loadEntry m i = .ok (u, p) ∧
        resize_image w.image 1600 = .ok b16 ∧ resize_image w.image 75 = .ok b75 ∧
        truthy w.env.s3_access_key = true ∧ truthy w.env.s3_secret_key = true ∧
        w.uploadOk u = true ∧ w.uploadOk p = true) := by
  rcases hp : parseCli c with _ | ⟨i, b⟩
  · simp [runCli, hp]
  · have h := runUpload_exit_iff w i b
    simp only [runCli, hp]
    refine ⟨?_, ?_, ?_⟩
    · rcases h.1 with h0 | h1
      · exact Or.inl h0
      · exact Or.inr (Or.inl h1)
    · constructor
      · intro h2
        rcases h.1 with h0 | h1
        · rw [h0] at h2; cases h2
        · rw [h1] at h2; cases h2
      · intro hnone
        cases hnone
    · rw [h.2]
      constructor
      · intro hs
        exact ⟨i, b, rfl, hs⟩
      · rintro ⟨i2, b2, hib, hs⟩
        rw [Option.some.injEq, Prod.mk.injEq] at hib
        obtain ⟨hi2, hb2⟩ := hib
        rw [hi2]
        exact hs

/-- C9: with truthy credentials, `upload_to_s3` creates the client
against the fixed endpoint with path-style addressing, then attempts
the upload with ContentType image/jpeg as the only metadata; and an
absent `--bucket` option resolves to the constant `S3_BUCKET`. -/
theorem C9_client_config (w : World) (buf : JpegBuffer) (s3_key bucket : String)
    (ha : truthy w.env.s3_access_key = true) (hs : truthy w.env.s3_secret_key = true) :
    effectiveBucket none = S3_BUCKET ∧
    upload_to_s3 w buf s3_key bucket =
      ([Event.createClient S3_ENDPOINT "path",
        Event.uploadAttempt bucket s3_key [("ContentType", "image/jpeg")]] ++
          (if w.uploadOk s3_key then [Event.echo (uploadedMsg bucket s3_key)] else []),
       w.uploadOk s3_key) := by
  refine ⟨rfl, ?_⟩
  simp [upload_to_s3, ha, hs, jpegExtraArgs]

/-- C9 witness: with both credentials set to nonempty strings, the
concrete upload call has exactly the fixed client configuration and
metadata. -/
theorem C9_witness :
    effectiveBucket none = S3_BUCKET ∧
    upload_to_s3 ⟨.ok ⟨none⟩, .ok ⟨4, 4, .RGB⟩, fun _ => true, ⟨some "k", some "s"⟩⟩
        ⟨75, 42, .RGB, 85, true⟩ "a" "bkt" =
      ([Event.createClient S3_ENDPOINT "path",
        Event.uploadAttempt "bkt" "a" [("ContentType", "image/jpeg")]] ++
          (if (⟨.ok ⟨none⟩, .ok ⟨4, 4, .RGB⟩, fun _ => true,
              ⟨some "k", some "s"⟩⟩ : World).uploadOk "a" then
            [Event.echo (uploadedMsg "bkt" "a")] else []),
       (⟨.ok ⟨none⟩, .ok ⟨4, 4, .RGB⟩, fun _ => true,
          ⟨some "k", some "s"⟩⟩ : World).uploadOk "a") :=
  C9_client_config ⟨.ok ⟨none⟩, .ok ⟨4, 4, .RGB⟩, fun _ => true, ⟨some "k", some "s"⟩⟩
    ⟨75, 42, .RGB, 85, true⟩ "a" "bkt" (by decide) (by decide)
